import Mathlib

/-!
Shallow embedding of the statistical trend detector of
src/sentry/statistical_detectors/algorithm.py.

Python floats are modelled as exact rationals, Python ints as integers,
and timezone-aware datetimes as rational Unix epochs (seconds).  The
`MovingAverage` primitive (sentry/utils/math.py) and the base types of
sentry/statistical_detectors/detector.py (`TrendType`, `DetectorPayload`,
`MalformedStateError`) are not among the repository files provided, so
they are modelled from the spec where noted; everything else is
translated from algorithm.py.
-/

namespace Sentry

/-- Modelled from the spec: the TrendType enumeration of
sentry/statistical_detectors/detector.py is not among the repository
files; section 3 of the spec gives it as the three-way output label. -/
inductive TrendType
  | Regressed
  | Improved
  | Unchanged
  deriving DecidableEq, Repr

/-- Modelled from the spec: DetectorPayload of
sentry/statistical_detectors/detector.py is not among the repository
files; per section 3 only its timestamp (an unambiguous instant, here a
rational Unix epoch) and scalar value feed the algorithm. -/
structure DetectorPayload where
  timestamp : ℚ
  value : ℚ
  deriving DecidableEq, Repr

/-- One scalar value of the redis mapping: to_redis_dict writes Python
ints and floats, and from_redis_dict additionally accepts string
encodings. -/
inductive RedisVal
  | rint (n : ℤ)
  | rfloat (q : ℚ)
  | rstr (s : String)
  deriving DecidableEq, Repr

/-- Python int() applied to a float: truncation toward zero. -/
def floatToInt (q : ℚ) : ℤ := if 0 ≤ q then ⌊q⌋ else ⌈q⌉

/-- Numeric value of a list of decimal digit characters. -/
def decDigitsVal (cs : List Char) : ℕ :=
  cs.foldl (fun acc c => acc * 10 + (c.toNat - 48)) 0

/-- Leading sign of a numeric literal: (negative?, remaining characters). -/
def splitSign : List Char → Bool × List Char
  | '-' :: cs => (true, cs)
  | '+' :: cs => (false, cs)
  | cs => (false, cs)

/-- Python int() applied to a string, restricted to an optional sign
followed by decimal digits (the integer literals of the wire format;
surrounding whitespace and underscores are not modelled). -/
def strToInt (s : String) : Option ℤ :=
  let p := splitSign s.toList
  if p.2 ≠ [] ∧ p.2.all Char.isDigit then
    some (if p.1 then -(decDigitsVal p.2 : ℤ) else (decDigitsVal p.2 : ℤ))
  else none

/-- Python float() applied to a string, restricted to an optional sign,
integer digits and an optional fractional part (the decimal literals of
the wire format; exponents, infinities and NaN are not modelled). -/
def strToFloat (s : String) : Option ℚ :=
  let p := splitSign s.toList
  let intPart := p.2.takeWhile Char.isDigit
  let rest := p.2.dropWhile Char.isDigit
  let mag : Option ℚ :=
    match rest with
    | [] => if intPart = [] then none else some (decDigitsVal intPart : ℚ)
    | c :: frac =>
        if c = '.' ∧ frac.all Char.isDigit ∧ (intPart ≠ [] ∨ frac ≠ []) then
          some ((decDigitsVal intPart : ℚ) +
            (decDigitsVal frac : ℚ) / (10 : ℚ) ^ frac.length)
        else none
  mag.map (fun q => if p.1 then -q else q)

/-- Python int(x) on a redis value: ints pass through, floats truncate
toward zero, strings parse as decimal integers; none models the raised
ValueError. -/
def RedisVal.toInt : RedisVal → Option ℤ
  | .rint n => some n
  | .rfloat q => some (floatToInt q)
  | .rstr s => strToInt s

/-- Python float(x) on a redis value: ints and floats pass through,
strings parse as decimal literals; none models the raised ValueError. -/
def RedisVal.toFloat : RedisVal → Option ℚ
  | .rint n => some ((n : ℚ))
  | .rfloat q => some q
  | .rstr s => strToFloat s

/-- MovingAverageCrossOverDetectorState (algorithm.py): frozen dataclass
holding the last processed instant (none when unseeded), the sample
count, and the two moving-average values. -/
structure MovingAverageCrossOverDetectorState where
  timestamp : Option ℚ
  count : ℤ
  moving_avg_short : ℚ
  moving_avg_long : ℚ
  deriving DecidableEq, Repr

/-- The redis mapping restricted to the four keys T, C, S and L that
to_redis_dict writes and from_redis_dict reads; a missing key is none. -/
structure RedisDict where
  T : Option RedisVal
  C : Option RedisVal
  S : Option RedisVal
  L : Option RedisVal
  deriving DecidableEq, Repr

/-- to_redis_dict (algorithm.py lines 32-42): always writes count, the
short value and the long value; writes the timestamp key only when the
timestamp is set, as int(timestamp.timestamp()). -/
def MovingAverageCrossOverDetectorState.to_redis_dict
    (s : MovingAverageCrossOverDetectorState) : RedisDict :=
  { C := some (.rint s.count)
    S := some (.rfloat s.moving_avg_short)
    L := some (.rfloat s.moving_avg_long)
    T := s.timestamp.map (fun ts => .rint (floatToInt ts)) }

/-- from_redis_dict (algorithm.py lines 44-56): a missing T key yields
timestamp none, a present one is coerced with int() and read back as a
UTC instant; C is coerced with int(), S and L with float().  A none
result models the exception raised on a missing or unparseable field
(wrapped as MalformedStateError, a class of detector.py that is not
among the repository files). -/
def MovingAverageCrossOverDetectorState.from_redis_dict (data : RedisDict) :
    Option MovingAverageCrossOverDetectorState := do
  let timestamp ← (match data.T with
    | none => some none
    | some ts => (ts.toInt).map (fun n => some ((n : ℚ))))
  let c ← data.C
  let count ← c.toInt
  let s ← data.S
  let moving_avg_short ← s.toFloat
  let l ← data.L
  let moving_avg_long ← l.toFloat
  pure { timestamp := timestamp, count := count,
         moving_avg_short := moving_avg_short,
         moving_avg_long := moving_avg_long }

/-- empty (algorithm.py lines 58-65): the canonical zero state. -/
def MovingAverageCrossOverDetectorState.empty : MovingAverageCrossOverDetectorState :=
  { timestamp := none, count := 0, moving_avg_short := 0, moving_avg_long := 0 }

/-- Modelled from the spec: the MovingAverage primitive of
sentry/utils/math.py is not among the repository files.  Per section 4.1
an instance owns opaque internal state (here of type sigma) with
set(value, count), update(value) and a read-only value; a factory is the
behaviour bundle together with the fresh state it constructs. -/
structure MovingAverage (σ : Type) where
  fresh : σ
  set : σ → ℚ → ℤ → σ
  update : σ → ℚ → σ
  value : σ → ℚ

/-- MovingAverageCrossOverDetectorConfig (algorithm.py lines 68-72):
minimum data points and the two moving-average factories. -/
structure MovingAverageCrossOverDetectorConfig (σs σl : Type) where
  min_data_points : ℤ
  short_moving_avg_factory : MovingAverage σs
  long_moving_avg_factory : MovingAverage σl

/-- MovingAverageCrossOverDetector (algorithm.py): the instance fields of
the class, with each moving-average object split into its behaviour and
its current internal state. -/
structure MovingAverageCrossOverDetector (σs σl : Type) where
  ops_short : MovingAverage σs
  ops_long : MovingAverage σl
  avg_short : σs
  avg_long : σl
  timestamp : Option ℚ
  count : ℤ
  min_data_points : ℤ

variable {σs σl : Type}

/-- Constructor of MovingAverageCrossOverDetector (algorithm.py lines
75-89): builds both averages from the factories and seeds each with
set(state value, state count). -/
def MovingAverageCrossOverDetector.init
    (state : MovingAverageCrossOverDetectorState)
    (config : MovingAverageCrossOverDetectorConfig σs σl) :
    MovingAverageCrossOverDetector σs σl :=
  { ops_short := config.short_moving_avg_factory
    ops_long := config.long_moving_avg_factory
    avg_short := config.short_moving_avg_factory.set
        config.short_moving_avg_factory.fresh state.moving_avg_short state.count
    avg_long := config.long_moving_avg_factory.set
        config.long_moving_avg_factory.fresh state.moving_avg_long state.count
    timestamp := state.timestamp
    count := state.count
    min_data_points := config.min_data_points }

/-- Out-of-order guard of update (algorithm.py lines 92-102): true
exactly when the detector has a timestamp and it is strictly later than
the payload's. -/
def MovingAverageCrossOverDetector.rejects
    (d : MovingAverageCrossOverDetector σs σl) (payload : DetectorPayload) : Bool :=
  match d.timestamp with
  | some t0 => decide (t0 > payload.timestamp)
  | none => false

/-- update (algorithm.py lines 91-136): reject out-of-order payloads
without touching state; otherwise fold the value into both averages,
advance timestamp and count, and classify a crossover once the count
exceeds min_data_points. -/
def MovingAverageCrossOverDetector.update
    (d : MovingAverageCrossOverDetector σs σl) (payload : DetectorPayload) :
    MovingAverageCrossOverDetector σs σl × Option TrendType :=
  if d.rejects payload then
    (d, none)
  else
    let old_moving_avg_short := d.ops_short.value d.avg_short
    let old_moving_avg_long := d.ops_long.value d.avg_long
    let d := { d with
      avg_short := d.ops_short.update d.avg_short payload.value
      avg_long := d.ops_long.update d.avg_long payload.value
      timestamp := some payload.timestamp
      count := d.count + 1 }
    let stablized := decide (d.count > d.min_data_points)
    if stablized
        ∧ d.ops_short.value d.avg_short > d.ops_long.value d.avg_long
        ∧ old_moving_avg_short ≤ old_moving_avg_long then
      (d, some TrendType.Regressed)
    else if stablized
        ∧ d.ops_short.value d.avg_short < d.ops_long.value d.avg_long
        ∧ old_moving_avg_short ≥ old_moving_avg_long then
      (d, some TrendType.Improved)
    else
      (d, some TrendType.Unchanged)

/-- Property state of MovingAverageCrossOverDetector (algorithm.py lines
138-145): rebuilds a snapshot from the current fields.  The source
assigns moving_avg_short.value to BOTH the moving_avg_short and the
moving_avg_long field (line 144), which this embedding reproduces. -/
def MovingAverageCrossOverDetector.state
    (d : MovingAverageCrossOverDetector σs σl) :
    MovingAverageCrossOverDetectorState :=
  { timestamp := d.timestamp
    count := d.count
    moving_avg_short := d.ops_short.value d.avg_short
    moving_avg_long := d.ops_short.value d.avg_short }

/-- Folds a list of payloads through update, keeping the final detector. -/
def MovingAverageCrossOverDetector.runUpdates :
    MovingAverageCrossOverDetector σs σl → List DetectorPayload →
    MovingAverageCrossOverDetector σs σl
  | d, [] => d
  | d, p :: ps => MovingAverageCrossOverDetector.runUpdates (d.update p).1 ps

/-- Folds a list of payloads through update, keeping each call's result. -/
def MovingAverageCrossOverDetector.runResults :
    MovingAverageCrossOverDetector σs σl → List DetectorPayload →
    List (Option TrendType)
  | _, [] => []
  | d, p :: ps =>
      (d.update p).2 :: MovingAverageCrossOverDetector.runResults (d.update p).1 ps

/-- Number of payloads of a run that pass the out-of-order guard. -/
def MovingAverageCrossOverDetector.acceptedCount :
    MovingAverageCrossOverDetector σs σl → List DetectorPayload → ℤ
  | _, [] => 0
  | d, p :: ps =>
      (if d.rejects p then 0 else 1) +
        MovingAverageCrossOverDetector.acceptedCount (d.update p).1 ps

/-- Modelled from the spec: section 8's short factory, a simple average
over the last 1 sample, tracking the latest value (sentry/utils/math.py
is not among the repository files). -/
def lastValueAvg : MovingAverage ℚ :=
  { fresh := 0
    set := fun _ v _ => v
    update := fun _ x => x
    value := fun s => s }

/-- Modelled from the spec: section 8's long factory, the cumulative mean
of all samples seen (sentry/utils/math.py is not among the repository
files); internal state is (current mean, samples absorbed). -/
def cumulativeMeanAvg : MovingAverage (ℚ × ℤ) :=
  { fresh := (0, 0)
    set := fun _ v c => (v, c)
    update := fun s x => ((s.1 * (s.2 : ℚ) + x) / ((s.2 : ℚ) + 1), s.2 + 1)
    value := fun s => s.1 }

/-- Section 8 crossover-scenario configuration: min_data_points 2,
last-value short average, cumulative-mean long average. -/
def demoConfig : MovingAverageCrossOverDetectorConfig ℚ (ℚ × ℤ) :=
  { min_data_points := 2
    short_moving_avg_factory := lastValueAvg
    long_moving_avg_factory := cumulativeMeanAvg }

/-- Section 8 payload stream: values 10, 10, 10, 100, 100 at strictly
increasing timestamps. -/
def demoPayloads : List DetectorPayload :=
  [⟨1, 10⟩, ⟨2, 10⟩, ⟨3, 10⟩, ⟨4, 100⟩, ⟨5, 100⟩]

/-- Detector built from the empty state with the scenario configuration. -/
def demoDetector : MovingAverageCrossOverDetector ℚ (ℚ × ℤ) :=
  MovingAverageCrossOverDetector.init MovingAverageCrossOverDetectorState.empty demoConfig

/-- Detector of the section 8 scenario after its first three samples. -/
def demoDetector3 : MovingAverageCrossOverDetector ℚ (ℚ × ℤ) :=
  demoDetector.runUpdates [⟨1, 10⟩, ⟨2, 10⟩, ⟨3, 10⟩]

/-- Detector resumed from a snapshot whose timestamp is 5. -/
def seededDetector : MovingAverageCrossOverDetector ℚ (ℚ × ℤ) :=
  MovingAverageCrossOverDetector.init ⟨some 5, 3, 7, 4⟩ demoConfig

/-- Value of the short average once the payload's value is folded in. -/
def MovingAverageCrossOverDetector.newShort
    (d : MovingAverageCrossOverDetector σs σl) (p : DetectorPayload) : ℚ :=
  d.ops_short.value (d.ops_short.update d.avg_short p.value)

/-- Value of the long average once the payload's value is folded in. -/
def MovingAverageCrossOverDetector.newLong
    (d : MovingAverageCrossOverDetector σs σl) (p : DetectorPayload) : ℚ :=
  d.ops_long.value (d.ops_long.update d.avg_long p.value)

/-- Value of the short average before an update. -/
def MovingAverageCrossOverDetector.oldShort
    (d : MovingAverageCrossOverDetector σs σl) : ℚ :=
  d.ops_short.value d.avg_short

/-- Value of the long average before an update. -/
def MovingAverageCrossOverDetector.oldLong
    (d : MovingAverageCrossOverDetector σs σl) : ℚ :=
  d.ops_long.value d.avg_long

/-- A required integer field of the redis mapping fails when its key is
missing or its value does not parse under Python int(). -/
def intFieldFails : Option RedisVal → Bool
  | none => true
  | some v => v.toInt.isNone

/-- A required float field of the redis mapping fails when its key is
missing or its value does not parse under Python float(). -/
def floatFieldFails : Option RedisVal → Bool
  | none => true
  | some v => v.toFloat.isNone

/-- The optional timestamp field fails only when a present value does not
parse under Python int(); a missing key is tolerated. -/
def timestampFieldFails : Option RedisVal → Bool
  | none => false
  | some v => v.toInt.isNone

/-- The timestamp step of from_redis_dict in isolation: success carries
the deserialized optional timestamp. -/
def parseTimestampField : Option RedisVal → Option (Option ℚ)
  | none => some none
  | some ts => ts.toInt.map (fun n => some ((n : ℚ)))

/-- Mapping whose timestamp value is an unparseable string while count,
short and long are all well formed. -/
def badTimestampDict : RedisDict :=
  ⟨some (.rstr "x"), some (.rint 0), some (.rfloat 0), some (.rfloat 1)⟩

/-- Count at zero exactly when no payload has been processed, and count
never negative: the detector invariant maintained by update. -/
def MovingAverageCrossOverDetector.goodState
    (d : MovingAverageCrossOverDetector σs σl) : Prop :=
  0 ≤ d.count ∧ (d.count = 0 ↔ d.timestamp = none)

/-- An update that fails the out-of-order guard returns none and the
detector untouched. -/
theorem update_rejected (d : MovingAverageCrossOverDetector σs σl)
    (p : DetectorPayload) (h : d.rejects p = true) : d.update p = (d, none) := by
  unfold MovingAverageCrossOverDetector.update
  rw [h]
  simp

/-- An update that passes the out-of-order guard folds the value into
both averages, advances the timestamp and increments the count. -/
theorem update_accepted_detector (d : MovingAverageCrossOverDetector σs σl)
    (p : DetectorPayload) (h : d.rejects p = false) :
    (d.update p).1 = { d with
      avg_short := d.ops_short.update d.avg_short p.value
      avg_long := d.ops_long.update d.avg_long p.value
      timestamp := some p.timestamp
      count := d.count + 1 } := by
  unfold MovingAverageCrossOverDetector.update
  rw [h]
  simp only [Bool.false_eq_true, if_false]
  split_ifs <;> rfl

/-- Result of an update that passes the out-of-order guard, as one
conditional expression. -/
theorem update_accepted_result (d : MovingAverageCrossOverDetector σs σl)
    (p : DetectorPayload) (h : d.rejects p = false) :
    (d.update p).2 =
      (if d.count + 1 > d.min_data_points ∧ d.newShort p > d.newLong p ∧
          d.oldShort ≤ d.oldLong then some TrendType.Regressed
       else if d.count + 1 > d.min_data_points ∧ d.newShort p < d.newLong p ∧
          d.oldShort ≥ d.oldLong then some TrendType.Improved
       else some TrendType.Unchanged) := by
  unfold MovingAverageCrossOverDetector.update
  rw [h]
  unfold MovingAverageCrossOverDetector.newShort MovingAverageCrossOverDetector.newLong
    MovingAverageCrossOverDetector.oldShort MovingAverageCrossOverDetector.oldLong
  simp only [Bool.false_eq_true, if_false, decide_eq_true_eq]
  split_ifs <;> rfl

unseal Rat.inv Rat.mul Rat.add Rat.sub in
/-- Claim C1, refuted by the code: after the section 8 run the long
average's own value is 46 but the state snapshot's moving_avg_long field
carries the short average's value 100, because the state property copies
moving_avg_short.value into both fields. -/
theorem state_copies_short_into_long :
    (demoDetector.runUpdates demoPayloads).state.moving_avg_long = 100 ∧
    (demoDetector.runUpdates demoPayloads).ops_long.value
        (demoDetector.runUpdates demoPayloads).avg_long = 46 ∧
    (100 : ℚ) ≠ 46 :=
  ⟨by decide, by decide, by decide⟩

/-- Claim C2: for an accepted update whose post-update count exceeds
min_data_points, the result is Regressed iff the short average ends
strictly above the long one having started at or below it, Improved iff
it ends strictly below having started at or above it, and Unchanged
exactly otherwise. -/
theorem update_crossover_decision (d : MovingAverageCrossOverDetector σs σl)
    (p : DetectorPayload) (hacc : d.rejects p = false)
    (hstab : d.count + 1 > d.min_data_points) :
    ((d.update p).2 = some TrendType.Regressed ↔
      (d.newShort p > d.newLong p ∧ d.oldShort ≤ d.oldLong)) ∧
    ((d.update p).2 = some TrendType.Improved ↔
      (d.newShort p < d.newLong p ∧ d.oldShort ≥ d.oldLong)) ∧
    ((d.update p).2 = some TrendType.Unchanged ↔
      (¬(d.newShort p > d.newLong p ∧ d.oldShort ≤ d.oldLong) ∧
       ¬(d.newShort p < d.newLong p ∧ d.oldShort ≥ d.oldLong))) := by
  rw [update_accepted_result d p hacc]
  by_cases hA : d.newShort p > d.newLong p ∧ d.oldShort ≤ d.oldLong
  · have hB : ¬(d.newShort p < d.newLong p ∧ d.oldShort ≥ d.oldLong) :=
      fun hb => (lt_asymm hA.1) hb.1
    simp [hstab, hA, hB]
  · by_cases hB : d.newShort p < d.newLong p ∧ d.oldShort ≥ d.oldLong
    · simp [hstab, hA, hB]
    · simp [hstab, hA, hB]

unseal Rat.inv Rat.mul Rat.add Rat.sub in
/-- Witness for claim C2: the fourth sample of the section 8 scenario is
an accepted, stabilized update classified as Regressed. -/
theorem update_crossover_decision_witness :
    (demoDetector3.update ⟨4, 100⟩).2 = some TrendType.Regressed :=
  ((update_crossover_decision demoDetector3 ⟨4, 100⟩ (by decide) (by decide)).1).mpr
    (by constructor <;> decide)

unseal Rat.inv Rat.mul Rat.add Rat.sub in
/-- Claim C3: the section 8 run (values 10, 10, 10, 100, 100, increasing
timestamps, min_data_points 2, last-value short average, cumulative-mean
long average, empty start) returns Regressed on its fourth call and
Unchanged on every other call. -/
theorem crossover_scenario :
    demoDetector.runResults demoPayloads =
      [some TrendType.Unchanged, some TrendType.Unchanged, some TrendType.Unchanged,
       some TrendType.Regressed, some TrendType.Unchanged] := by
  decide

unseal Rat.inv Rat.mul Rat.add Rat.sub in
/-- Run of the stabilization-boundary demonstration, evaluated: with
min_data_points 2, the third accepted update from the empty state already
signals Regressed. -/
theorem third_update_regressed :
    demoDetector.runResults [⟨1, 10⟩, ⟨2, 10⟩, ⟨3, 100⟩] =
      [some TrendType.Unchanged, some TrendType.Unchanged, some TrendType.Regressed] := by
  decide

/-- Claim C4: while the post-update count is at most min_data_points
every accepted update returns Unchanged regardless of the crossover
arithmetic, and with min_data_points 2 the third accepted update of a run
from the empty state is the first that can return Regressed. -/
theorem stabilization_boundary (d : MovingAverageCrossOverDetector σs σl)
    (p : DetectorPayload) (hacc : d.rejects p = false)
    (hle : d.count + 1 ≤ d.min_data_points) :
    (d.update p).2 = some TrendType.Unchanged ∧
    demoDetector.runResults [⟨1, 10⟩, ⟨2, 10⟩, ⟨3, 100⟩] =
      [some TrendType.Unchanged, some TrendType.Unchanged, some TrendType.Regressed] := by
  constructor
  · rw [update_accepted_result d p hacc]
    have h1 : ¬ (d.count + 1 > d.min_data_points) := by omega
    simp [h1]
  · exact third_update_regressed

unseal Rat.inv Rat.mul Rat.add Rat.sub in
/-- Witness for claim C4: the first update from the empty state with
min_data_points 2 is accepted and returns Unchanged. -/
theorem stabilization_boundary_witness :
    (demoDetector.update ⟨1, 10⟩).2 = some TrendType.Unchanged :=
  (stabilization_boundary demoDetector ⟨1, 10⟩ (by decide) (by decide)).1

/-- Claim C5: an out-of-order payload is rejected: update returns none
and the detector, hence its state snapshot, is exactly as before the
call. -/
theorem out_of_order_rejected (d : MovingAverageCrossOverDetector σs σl)
    (p : DetectorPayload) (t0 : ℚ) (ht : d.timestamp = some t0)
    (hlt : p.timestamp < t0) :
    d.update p = (d, none) ∧ (d.update p).1.state = d.state := by
  have hrej : d.rejects p = true := by
    unfold MovingAverageCrossOverDetector.rejects
    rw [ht]
    exact decide_eq_true hlt
  have h : d.update p = (d, none) := update_rejected d p hrej
  exact ⟨h, by rw [h]⟩

/-- Witness for claim C5: a detector whose timestamp is 5 rejects a
payload stamped 1 without change. -/
theorem out_of_order_rejected_witness :
    seededDetector.update ⟨1, 3⟩ = (seededDetector, none) :=
  (out_of_order_rejected seededDetector ⟨1, 3⟩ 5 (by decide) (by decide)).1

/-- Truncation toward zero of an integral rational is that integer. -/
theorem floatToInt_intCast (n : ℤ) : floatToInt ((n : ℚ)) = n := by
  unfold floatToInt
  split_ifs <;> simp

/-- Claim C6: deserializing a serialized state reproduces it with the
timestamp truncated toward whole seconds; with no timestamp or one at
second resolution the round trip is the identity, and with no timestamp
the T key is omitted from the mapping. -/
theorem redis_round_trip (s : MovingAverageCrossOverDetectorState) :
    (MovingAverageCrossOverDetectorState.from_redis_dict s.to_redis_dict =
      some { s with timestamp := s.timestamp.map (fun ts => ((floatToInt ts : ℤ) : ℚ)) }) ∧
    ((s.timestamp = none ∨ ∃ n : ℤ, s.timestamp = some ((n : ℚ))) →
      MovingAverageCrossOverDetectorState.from_redis_dict s.to_redis_dict = some s) ∧
    (s.timestamp = none → s.to_redis_dict.T = none) := by
  obtain ⟨ts, c, ms, ml⟩ := s
  refine ⟨?_, ?_, ?_⟩
  · cases ts <;>
      simp [MovingAverageCrossOverDetectorState.to_redis_dict,
        MovingAverageCrossOverDetectorState.from_redis_dict,
        RedisVal.toInt, RedisVal.toFloat, Option.bind]
  · rintro (h | ⟨n, h⟩) <;> subst h <;>
      simp [MovingAverageCrossOverDetectorState.to_redis_dict,
        MovingAverageCrossOverDetectorState.from_redis_dict,
        RedisVal.toInt, RedisVal.toFloat, Option.bind, floatToInt_intCast]
  · intro h
    subst h
    rfl

/-- Claim C9: a payload whose timestamp equals the detector's own is
accepted, not rejected: a trend classification (not none) is returned,
the value is folded into both averages, the count is incremented and the
timestamp is advanced to the payload's. -/
theorem equal_timestamp_accepted (d : MovingAverageCrossOverDetector σs σl)
    (p : DetectorPayload) (t0 : ℚ) (ht : d.timestamp = some t0)
    (heq : p.timestamp = t0) :
    (d.update p).2 ≠ none ∧
    (d.update p).1.count = d.count + 1 ∧
    (d.update p).1.avg_short = d.ops_short.update d.avg_short p.value ∧
    (d.update p).1.avg_long = d.ops_long.update d.avg_long p.value ∧
    (d.update p).1.timestamp = some p.timestamp := by
  have hacc : d.rejects p = false := by
    unfold MovingAverageCrossOverDetector.rejects
    rw [ht]
    simp [heq]
  have h1 := update_accepted_detector d p hacc
  refine ⟨?_, by rw [h1], by rw [h1], by rw [h1], by rw [h1]⟩
  rw [update_accepted_result d p hacc]
  split_ifs <;> simp

/-- Witness for claim C9: a detector whose timestamp is 5 accepts a
payload stamped exactly 5. -/
theorem equal_timestamp_accepted_witness :
    (seededDetector.update ⟨5, 2⟩).2 ≠ none :=
  (equal_timestamp_accepted seededDetector ⟨5, 2⟩ 5 (by decide) (by decide)).1

unseal Rat.inv Rat.mul Rat.add Rat.sub in
/-- Claim C10: from_redis_dict coerces string encodings: T and C parse
under int(), S and L under float(), so string values 7, 5, 1.5 and 2.0
deserialize to timestamp 7, count 5, short 1.5 and long 2.0. -/
theorem from_redis_string_coercions :
    MovingAverageCrossOverDetectorState.from_redis_dict
      ⟨some (.rstr "7"), some (.rstr "5"), some (.rstr "1.5"), some (.rstr "2.0")⟩ =
      some ⟨some 7, 5, 3/2, 2⟩ := by
  decide


/-- from_redis_dict written as one chain of option binds. -/
theorem from_redis_dict_eq (data : RedisDict) :
    MovingAverageCrossOverDetectorState.from_redis_dict data =
      (parseTimestampField data.T).bind (fun timestamp =>
        data.C.bind (fun c => c.toInt.bind (fun count =>
          data.S.bind (fun s => s.toFloat.bind (fun ms =>
            data.L.bind (fun l => l.toFloat.bind (fun ml =>
              some ⟨timestamp, count, ms, ml⟩))))))) := rfl

/-- The timestamp step fails exactly when the timestamp field does. -/
theorem parseTs_bind_eq_none_iff {β : Type} (o : Option RedisVal)
    (k : Option ℚ → Option β) (P : Prop) (hk : ∀ t, (k t = none ↔ P)) :
    (parseTimestampField o).bind k = none ↔ (timestampFieldFails o ∨ P) := by
  cases o with
  | none => simp [parseTimestampField, timestampFieldFails, hk]
  | some v =>
      cases h : v.toInt <;>
        simp [parseTimestampField, timestampFieldFails, h, hk,
          Option.isNone_iff_eq_none]

/-- An int() field step fails exactly when the field does or the rest
fails. -/
theorem bind_toInt_eq_none_iff {β : Type} (o : Option RedisVal)
    (k : ℤ → Option β) (P : Prop) (hk : ∀ n, (k n = none ↔ P)) :
    (o.bind fun v => v.toInt.bind k) = none ↔ (intFieldFails o ∨ P) := by
  cases o with
  | none => simp [intFieldFails]
  | some v =>
      cases h : v.toInt <;>
        simp [intFieldFails, h, hk, Option.isNone_iff_eq_none]

/-- A float() field step fails exactly when the field does or the rest
fails. -/
theorem bind_toFloat_eq_none_iff {β : Type} (o : Option RedisVal)
    (k : ℚ → Option β) (P : Prop) (hk : ∀ q, (k q = none ↔ P)) :
    (o.bind fun v => v.toFloat.bind k) = none ↔ (floatFieldFails o ∨ P) := by
  cases o with
  | none => simp [floatFieldFails]
  | some v =>
      cases h : v.toFloat <;>
        simp [floatFieldFails, h, hk, Option.isNone_iff_eq_none]




/-- Claim C7 counterexample: on a mapping whose T value is the
unparseable string x while C, S and L are all well formed,
from_redis_dict fails even though none of count, moving_avg_short and
moving_avg_long is missing or unparseable. -/
theorem from_redis_failure_cex :
    ¬ (MovingAverageCrossOverDetectorState.from_redis_dict badTimestampDict = none ↔
      (intFieldFails badTimestampDict.C ∨ floatFieldFails badTimestampDict.S ∨
       floatFieldFails badTimestampDict.L)) := by
  decide

/-- Claim C7 as amended: from_redis_dict fails exactly when a present
timestamp value, or the count, short or long field, is missing or
unparseable under its expected numeric type; a missing timestamp key is
not an error and deserializes to a state with no timestamp. -/
theorem from_redis_failure_characterization (data : RedisDict) :
    (MovingAverageCrossOverDetectorState.from_redis_dict data = none ↔
      (timestampFieldFails data.T ∨ intFieldFails data.C ∨
       floatFieldFails data.S ∨ floatFieldFails data.L)) ∧
    (data.T = none →
      ∀ st, MovingAverageCrossOverDetectorState.from_redis_dict data = some st →
        st.timestamp = none) := by
  constructor
  · rw [from_redis_dict_eq]
    refine Iff.trans (parseTs_bind_eq_none_iff data.T _ _ (fun t =>
      bind_toInt_eq_none_iff data.C _ _ (fun c =>
        bind_toFloat_eq_none_iff data.S _ _ (fun s =>
          bind_toFloat_eq_none_iff data.L _ False (fun l => by simp))))) (by simp)
  · intro h st hsome
    rw [from_redis_dict_eq, h] at hsome
    rcases Option.bind_eq_some.mp hsome with ⟨t, ht, h2⟩
    have ht2 : t = none := by
      have hts : parseTimestampField none = some none := rfl
      rw [hts] at ht
      exact (Option.some_inj.mp ht).symm
    subst ht2
    rcases Option.bind_eq_some.mp h2 with ⟨c, hc, h2⟩
    rcases Option.bind_eq_some.mp h2 with ⟨count, hcount, h3⟩
    rcases Option.bind_eq_some.mp h3 with ⟨s, hs, h4⟩
    rcases Option.bind_eq_some.mp h4 with ⟨ms, hms, h5⟩
    rcases Option.bind_eq_some.mp h5 with ⟨l, hl, h6⟩
    rcases Option.bind_eq_some.mp h6 with ⟨ml, hml, h7⟩
    injection h7 with h8
    rw [← h8]



/-- Count is monotone across one update. -/
theorem update_count_mono (d : MovingAverageCrossOverDetector σs σl)
    (p : DetectorPayload) : d.count ≤ (d.update p).1.count := by
  cases h : d.rejects p
  · rw [update_accepted_detector d p h]
    simp
  · rw [update_rejected d p h]

/-- Count after a run is the starting count plus the number of accepted
payloads. -/
theorem runUpdates_count (ps : List DetectorPayload)
    (d : MovingAverageCrossOverDetector σs σl) :
    (d.runUpdates ps).count = d.count + d.acceptedCount ps := by
  induction ps generalizing d with
  | nil =>
      simp [MovingAverageCrossOverDetector.runUpdates,
        MovingAverageCrossOverDetector.acceptedCount]
  | cons p ps ih =>
      simp only [MovingAverageCrossOverDetector.runUpdates,
        MovingAverageCrossOverDetector.acceptedCount]
      rw [ih]
      cases h : d.rejects p
      · rw [update_accepted_detector d p h]
        simp
        omega
      · rw [update_rejected d p h]
        simp

/-- One update preserves the count/timestamp invariant. -/
theorem update_preserves_good (d : MovingAverageCrossOverDetector σs σl)
    (p : DetectorPayload) (h : d.goodState) : (d.update p).1.goodState := by
  cases hr : d.rejects p
  · rw [update_accepted_detector d p hr]
    have h1 := h.1
    constructor
    · simp
      omega
    · simp
      omega
  · rw [update_rejected d p hr]
    exact h

/-- A whole run preserves the count/timestamp invariant. -/
theorem runUpdates_good (ps : List DetectorPayload)
    (d : MovingAverageCrossOverDetector σs σl) (h : d.goodState) :
    (d.runUpdates ps).goodState := by
  induction ps generalizing d with
  | nil => exact h
  | cons p ps ih => exact ih _ (update_preserves_good d p h)

/-- Claim C8: from the empty state, count is zero exactly while no
payload has been processed, the final count is the number of accepted
payloads, count never decreases across an update, and a rejected update
leaves it unchanged. -/
theorem empty_run_invariants (config : MovingAverageCrossOverDetectorConfig σs σl)
    (ps : List DetectorPayload) :
    (((MovingAverageCrossOverDetector.init .empty config).runUpdates ps).count = 0 ↔
      ((MovingAverageCrossOverDetector.init .empty config).runUpdates ps).timestamp = none) ∧
    ((MovingAverageCrossOverDetector.init .empty config).runUpdates ps).count =
      (MovingAverageCrossOverDetector.init .empty config).acceptedCount ps ∧
    (∀ (d : MovingAverageCrossOverDetector σs σl) (p : DetectorPayload),
      d.count ≤ (d.update p).1.count) ∧
    (∀ (d : MovingAverageCrossOverDetector σs σl) (p : DetectorPayload),
      d.rejects p = true → (d.update p).1.count = d.count) := by
  have hgood : (MovingAverageCrossOverDetector.init
      MovingAverageCrossOverDetectorState.empty config).goodState := by
    constructor <;> simp [MovingAverageCrossOverDetector.init,
      MovingAverageCrossOverDetectorState.empty, MovingAverageCrossOverDetector.goodState]
  refine ⟨(runUpdates_good ps _ hgood).2, ?_, update_count_mono, ?_⟩
  · have h := runUpdates_count ps (MovingAverageCrossOverDetector.init .empty config)
    simpa [MovingAverageCrossOverDetector.init,
      MovingAverageCrossOverDetectorState.empty] using h
  · intro d p h
    rw [update_rejected d p h]


end Sentry
